import Mathlib

/-!
Verification development for the AppPowerSwitcher core pipeline.

The embedding translates the Python sources into pure Lean definitions:
threads become explicit schedules of loop inputs, the bounded queue becomes a
list with a capacity, and the external collaborators (config lookup, powercfg
subprocess calls) become oracle parameters.  Sources embedded here:
  src/application/power_switcher_app.py   (PowerSwitcherApp)
  src/infrastructure/windows/event_listener.py   (EventListener, callback)
  src/infrastructure/configuration/config_manager.py   (ConfigManager lookup)
  src/infrastructure/power_management/power_cfg_manager.py (PowerCfgManager)
-/

/-- Bounded event queue, modelling queue.Queue as used by the pipeline
(PowerSwitcherApp.__init__ creates it with maxsize 100); items are kept
oldest first. -/
structure EventQueue (α : Type) where
  maxsize : Nat
  items : List α
deriving DecidableEq

/-- Queue maxsize chosen in PowerSwitcherApp.__init__ line 56. -/
def event_queue_maxsize : Nat := 100

/-- Model of the Python str.lower method: lowercase every character
(adequate for the ASCII GUIDs and process names handled here, and
structurally recursive so that proofs can evaluate it on literals). -/
def String.lower (s : String) : String := String.mk (s.data.map Char.toLower)

/-- Model of the Python str.strip method: drop leading and trailing
whitespace characters. -/
def String.strip (s : String) : String :=
  String.mk (((s.data.dropWhile Char.isWhitespace).reverse.dropWhile Char.isWhitespace).reverse)

/-- Semantics of queue.Queue.put_nowait: when maxsize is positive and the
queue already holds at least maxsize items the put raises Full (here: the
queue is unchanged and the flag is false, the caller drops the new item);
otherwise the new item is appended at the tail and the flag is true. -/
def put_nowait {α : Type} (q : EventQueue α) (e : α) : EventQueue α × Bool :=
  if 0 < q.maxsize ∧ q.maxsize ≤ q.items.length then (q, false)
  else ({ q with items := q.items ++ [e] }, true)

/-- Foreground branch of the module-level win-event callback in
event_listener.py (lines 128-154): when identity resolution produced a
process name it is submitted with put_nowait and a full queue drops the new
name (queue.Full is caught and only logged); when resolution failed nothing
is submitted.  The Bool reports whether the event was delivered. -/
def global_win_event_callback (q : EventQueue String) (process_name : Option String) :
    EventQueue String × Bool :=
  match process_name with
  | none => (q, false)
  | some n => put_nowait q n

/-- Sequence of put_nowait publications with no intervening receive,
returning the final queue and the per-publish delivered flags. -/
def publishAll {α : Type} : EventQueue α → List α → EventQueue α × List Bool
  | q, [] => (q, [])
  | q, e :: es =>
    ((publishAll (put_nowait q e).1 es).1,
     (put_nowait q e).2 :: (publishAll (put_nowait q e).1 es).2)

/-- ConfigManager.get_power_plan_for_process (config_manager.py lines
293-312): an empty process name yields None; otherwise the lowercased,
stripped name is looked up in the loaded process-to-plan map. -/
def get_power_plan_for_process (app_power_map : List (String × String))
    (process_name : String) : Option String :=
  if process_name = "" then none
  else List.lookup (process_name.lower.strip) app_power_map

/-- Command name constant of power_cfg_manager.py. -/
def POWERCARD_COMMAND : String := "powercfg"

/-- Argument constant of power_cfg_manager.py. -/
def SET_ACTIVE_ARG : String := "/setactive"

/-- Result of PowerCfgManager.switch_power_plan together with the powercfg
command lines it issued. -/
structure PowerCmdResult where
  ok : Bool
  commands_issued : List (List String)
deriving DecidableEq

/-- PowerCfgManager.switch_power_plan (power_cfg_manager.py lines 124-190):
a falsy plan identifier (absent, or the empty string) returns False at once
with no subprocess call; otherwise exactly one powercfg /setactive command is
issued with the stripped GUID and success means return code zero.  The
powercfg_run oracle abstracts subprocess.run's return code. -/
def switch_power_plan (powercfg_run : List String → Nat)
    (power_plan_guid : Option String) : PowerCmdResult :=
  match power_plan_guid with
  | none => { ok := false, commands_issued := [] }
  | some g =>
    if g = "" then { ok := false, commands_issued := [] }
    else
      { ok := powercfg_run [POWERCARD_COMMAND, SET_ACTIVE_ARG, g.strip] == 0,
        commands_issued := [[POWERCARD_COMMAND, SET_ACTIVE_ARG, g.strip]] }

/-- Mutable trackers of PowerSwitcherApp (__init__ lines 67-73). -/
structure EngineState where
  last_processed_process : Option String
  last_applied_power_plan_identifier : Option String
  last_known_active_guid : Option String
deriving DecidableEq

/-- EngineState exactly as initialized by PowerSwitcherApp.__init__. -/
def initialEngineState : EngineState :=
  { last_processed_process := none,
    last_applied_power_plan_identifier := none,
    last_known_active_guid := none }

/-- Observable effects of one iteration of the processing loop: how many
config resolutions (get_power_plan_for_process calls) ran, how many
get_active_scheme_guid queries ran, and the targets passed to
switch_power_plan. -/
structure ItemTrace where
  resolutions : Nat
  active_queries : Nat
  switch_calls : List String
deriving DecidableEq

/-- External collaborators of the processing loop, as oracles: the loaded
config map and default plan of ConfigManager, the active scheme GUID that
powercfg /getactivescheme reports (none models a failed query), and the
return code of powercfg commands. -/
structure Env where
  app_power_map : List (String × String)
  default_power_plan : Option String
  active_guid : Option String
  powercfg_run : List String → Nat

/-- Target-plan resolution block of PowerSwitcherApp._process_queue (lines
262-278): config lookup; when the lookup returns None fall back to the
default plan and discard if that default is falsy; finally strip the chosen
value and discard when it is empty or whitespace only.  A none result means
the event is discarded with no switch attempt. -/
def resolveTarget (env : Env) (process_name : String) : Option String :=
  match
    (match get_power_plan_for_process env.app_power_map process_name with
     | some g => some g
     | none =>
       match env.default_power_plan with
       | none => none
       | some d => if d = "" then none else some d) with
  | none => none
  | some g => if g.strip = "" then none else some g.strip

/-- One iteration of PowerSwitcherApp._process_queue for a dequeued process
name (lines 248-327): consecutive-duplicate suppression by exact string
equality, tracker update, target resolution, active-scheme query with falsy
check, case-insensitive comparison via lower, and either the tracker refresh
of the no-op branch or the switch attempt with its tracker updates. -/
def processItem (env : Env) (s : EngineState) (process_name : String) :
    EngineState × ItemTrace :=
  if s.last_processed_process = some process_name then
    (s, { resolutions := 0, active_queries := 0, switch_calls := [] })
  else
    match resolveTarget env process_name with
    | none =>
      ({ s with last_processed_process := some process_name },
       { resolutions := 1, active_queries := 0, switch_calls := [] })
    | some target =>
      match env.active_guid with
      | none =>
        ({ s with last_processed_process := some process_name },
         { resolutions := 1, active_queries := 1, switch_calls := [] })
      | some current_active_guid =>
        if current_active_guid = "" then
          ({ s with last_processed_process := some process_name },
           { resolutions := 1, active_queries := 1, switch_calls := [] })
        else if current_active_guid.lower = target.lower then
          if ¬ s.last_known_active_guid = some target.lower then
            ({ s with last_processed_process := some process_name,
                      last_applied_power_plan_identifier := some target,
                      last_known_active_guid := some target.lower },
             { resolutions := 1, active_queries := 1, switch_calls := [] })
          else
            ({ s with last_processed_process := some process_name },
             { resolutions := 1, active_queries := 1, switch_calls := [] })
        else
          if (switch_power_plan env.powercfg_run (some target)).ok then
            ({ s with last_processed_process := some process_name,
                      last_applied_power_plan_identifier := some target,
                      last_known_active_guid := some target.lower },
             { resolutions := 1, active_queries := 1, switch_calls := [target] })
          else
            ({ s with last_processed_process := some process_name },
             { resolutions := 1, active_queries := 1, switch_calls := [target] })

/-- Repeated processItem over a list of dequeued names, accumulating the
traces: the steady-state behaviour of the processing loop on event items. -/
def processRun (env : Env) : EngineState → List String → EngineState × ItemTrace
  | s, [] => (s, { resolutions := 0, active_queries := 0, switch_calls := [] })
  | s, n :: ns =>
    ((processRun env (processItem env s n).1 ns).1,
     { resolutions := (processItem env s n).2.resolutions
         + (processRun env (processItem env s n).1 ns).2.resolutions,
       active_queries := (processItem env s n).2.active_queries
         + (processRun env (processItem env s n).1 ns).2.active_queries,
       switch_calls := (processItem env s n).2.switch_calls
         ++ (processRun env (processItem env s n).1 ns).2.switch_calls })

/-- One dequeue outcome seen by the processing loop: a queue.Empty timeout,
the None stop sentinel, an ordinary process-name item, or an item whose
processing raises an unexpected exception after applying some partial state
mutation (the per-iteration except-Exception branch). -/
inductive LoopInput where
  | timeout : LoopInput
  | sentinel : LoopInput
  | event : String → LoopInput
  | fault : (EngineState → EngineState) → LoopInput

/-- The while loop of PowerSwitcherApp._process_queue over a finite schedule
of dequeue outcomes (lines 233-343): a timeout (queue.Empty) continues, the
None sentinel breaks out of the loop, an event runs one processItem
iteration, and a fault is caught by the per-iteration except clause, logged,
and the loop continues with the next input.  The result is the final engine
state and all switch targets requested during the run. -/
def process_queue_loop (env : Env) : EngineState → List LoopInput → EngineState × List String
  | s, [] => (s, [])
  | s, LoopInput.timeout :: rest => process_queue_loop env s rest
  | s, LoopInput.sentinel :: _ => (s, [])
  | s, LoopInput.event n :: rest =>
    ((process_queue_loop env (processItem env s n).1 rest).1,
     (processItem env s n).2.switch_calls
       ++ (process_queue_loop env (processItem env s n).1 rest).2)
  | s, LoopInput.fault f :: rest => process_queue_loop env (f s) rest

/-- Outcome of EventListener._thread_entry as a function of whether the
thread id was obtained and whether SetWinEventHook returned a non-zero
handle. -/
structure ListenerEntryRun where
  subscription_failed : Bool
  entered_message_loop : Bool
deriving DecidableEq

/-- EventListener._thread_entry (event_listener.py lines 249-318): a failed
thread-id fetch or a zero handle from SetWinEventHook cleans up and returns
without entering the GetMessageW loop; only a successful subscription enters
the message loop. -/
def EventListener.thread_entry (thread_id_ok hook_ok : Bool) : ListenerEntryRun :=
  if thread_id_ok then
    if hook_ok then { subscription_failed := false, entered_message_loop := true }
    else { subscription_failed := true, entered_message_loop := false }
  else { subscription_failed := true, entered_message_loop := false }

/-- Outcome of PowerSwitcherApp.start as seen by its caller: whether it
returned True, whether the failure path invoked stop(), and the run of the
listener thread it spawned (none when the spawn itself raised). -/
structure StartResult where
  returned_true : Bool
  stop_called : Bool
  listener_run : Option ListenerEntryRun
deriving DecidableEq

/-- PowerSwitcherApp.start (power_switcher_app.py lines 123-145): only an
exception raised by EventListener.start itself (spawning the thread) is
caught by the try block, triggering stop() and a RuntimeError; otherwise
start returns True at once while the hook outcome is decided later on the
listener thread and never reaches this caller. -/
def PowerSwitcherApp.start (listener_start_raises thread_id_ok hook_ok : Bool) :
    StartResult :=
  if listener_start_raises then
    { returned_true := false, stop_called := true, listener_run := none }
  else
    { returned_true := true, stop_called := false,
      listener_run := some (EventListener.thread_entry thread_id_ok hook_ok) }

/-- Coordinator state touched by PowerSwitcherApp.stop: the running event
flag, the shared event queue (holding process names or the none sentinel),
and whether the EventListener believes it is running. -/
structure AppState where
  running : Bool
  event_queue : EventQueue (Option String)
  listener_is_running : Bool
deriving DecidableEq

/-- PowerSwitcherApp._cleanup_threads_and_hooks (lines 183-219): stops the
EventListener (itself a safe no-op when already stopped) and joins the
processing thread; on the tracked state this clears the listener flag. -/
def cleanup_threads_and_hooks (s : AppState) : AppState :=
  { s with listener_is_running := false }

/-- Record of what one PowerSwitcherApp.stop call did. -/
structure StopTrace where
  cleanup_attempted : Bool
  sentinel_delivered : Bool
deriving DecidableEq

/-- PowerSwitcherApp.stop (power_switcher_app.py lines 147-181): when the
running flag is already clear it only re-runs the cleanup sequence;
otherwise it clears the flag, puts the None sentinel with put_nowait (the
sentinel is dropped when the queue is full), and runs the cleanup
sequence. -/
def PowerSwitcherApp.stop (s : AppState) : AppState × StopTrace :=
  if s.running = false then
    (cleanup_threads_and_hooks s,
     { cleanup_attempted := true, sentinel_delivered := false })
  else
    (cleanup_threads_and_hooks
       { s with running := false,
                event_queue := (put_nowait s.event_queue none).1 },
     { cleanup_attempted := true,
       sentinel_delivered := (put_nowait s.event_queue none).2 })

/-- Tracker-coupling invariant: whenever both plan trackers are set, the
last known active GUID is the lowercase of the last applied identifier. -/
def trackerInv (s : EngineState) : Prop :=
  ∀ a g, s.last_applied_power_plan_identifier = some a →
    s.last_known_active_guid = some g → g = a.lower

/-- Example oracle environment: one mapping entry, default plan D, active
scheme Y, powercfg succeeding. -/
def envEx : Env :=
  { app_power_map := [("chrome.exe", "X")],
    default_power_plan := some "D",
    active_guid := some "Y",
    powercfg_run := fun _ => 0 }

/-- Environment for the no-op branch: the active scheme is a case variant of
the mapped target. -/
def envNoop : Env :=
  { app_power_map := [("chrome.exe", "X")],
    default_power_plan := some "D",
    active_guid := some "x",
    powercfg_run := fun _ => 0 }

/-- Environment with an empty map and a usable default plan. -/
def envDefaultOnly : Env :=
  { app_power_map := [],
    default_power_plan := some "D",
    active_guid := some "Y",
    powercfg_run := fun _ => 0 }

/-- Environment with an empty map and no default plan. -/
def envNoDefault : Env :=
  { app_power_map := [],
    default_power_plan := none,
    active_guid := some "Y",
    powercfg_run := fun _ => 0 }

/-- Engine state that has just processed chrome.exe. -/
def stateDup : EngineState :=
  { last_processed_process := some "chrome.exe",
    last_applied_power_plan_identifier := none,
    last_known_active_guid := none }

/-- App state whose running flag is already clear. -/
def stoppedApp : AppState :=
  { running := false,
    event_queue := { maxsize := event_queue_maxsize, items := [] },
    listener_is_running := true }

/-- Every branch of processItem records the dequeued name as the last
processed process (the tracker is written before any resolution step). -/
theorem processItem_last_processed (env : Env) (s : EngineState) (n : String) :
    (processItem env s n).1.last_processed_process = some n := by
  unfold processItem
  split
  · next h => exact h
  · repeat' split
    all_goals rfl

/-- A dequeued name equal to the last processed one is discarded with the
state unchanged and an empty trace. -/
theorem processItem_skip (env : Env) (s : EngineState) (n : String)
    (h : s.last_processed_process = some n) :
    processItem env s n = (s, { resolutions := 0, active_queries := 0, switch_calls := [] }) := by
  unfold processItem
  rw [if_pos h]

/-- One processItem iteration makes at most one config resolution, at most
one active-scheme query, and at most one switch call. -/
theorem processItem_trace_bound (env : Env) (s : EngineState) (n : String) :
    (processItem env s n).2.resolutions ≤ 1 ∧
    (processItem env s n).2.active_queries ≤ 1 ∧
    (processItem env s n).2.switch_calls.length ≤ 1 := by
  unfold processItem
  split
  · simp
  · repeat' split
    all_goals simp

/-- The plan trackers after a processItem iteration are either exactly the
previous ones or a coupled pair consisting of some target and its
lowercase form. -/
theorem processItem_trackers (env : Env) (s : EngineState) (n : String) :
    ((processItem env s n).1.last_applied_power_plan_identifier
        = s.last_applied_power_plan_identifier ∧
     (processItem env s n).1.last_known_active_guid = s.last_known_active_guid) ∨
    (∃ t, (processItem env s n).1.last_applied_power_plan_identifier = some t ∧
          (processItem env s n).1.last_known_active_guid = some t.lower) := by
  unfold processItem
  split
  · exact Or.inl ⟨rfl, rfl⟩
  · repeat' split
    all_goals first
      | exact Or.inl ⟨rfl, rfl⟩
      | exact Or.inr ⟨_, rfl, rfl⟩

/-- A run of duplicates of an already-processed name is skipped entirely:
state unchanged, no resolutions, no queries, no switch calls. -/
theorem processRun_replicate_skip (env : Env) (n : String) (m : Nat) :
    ∀ (s : EngineState), s.last_processed_process = some n →
      processRun env s (List.replicate m n)
        = (s, { resolutions := 0, active_queries := 0, switch_calls := [] }) := by
  induction m with
  | zero => intro s _; rfl
  | succ m ih =>
    intro s h
    rw [List.replicate_succ]
    show processRun env s (n :: List.replicate m n) = _
    unfold processRun
    rw [processItem_skip env s n h]
    simp [ih s h]

/-- C2: an event whose process name equals the last processed name (exact,
case-sensitive comparison) is discarded without plan resolution and without
any Power Controller call, and a run of n consecutive identical names
behaves exactly like its first item: at most one resolution and at most one
setActivePlan call in total. -/
theorem c2_consecutive_duplicate_suppression (env : Env) (s : EngineState)
    (name : String) (n : Nat) (h : 1 ≤ n) :
    (s.last_processed_process = some name →
      processItem env s name
        = (s, { resolutions := 0, active_queries := 0, switch_calls := [] })) ∧
    processRun env s (List.replicate n name) = processRun env s [name] ∧
    (processRun env s (List.replicate n name)).2.resolutions ≤ 1 ∧
    (processRun env s (List.replicate n name)).2.switch_calls.length ≤ 1 := by
  obtain ⟨m, rfl⟩ : ∃ m, n = m + 1 := ⟨n - 1, by omega⟩
  have hmain : processRun env s (List.replicate (m + 1) name) = processRun env s [name] := by
    rw [List.replicate_succ]
    show processRun env s (name :: List.replicate m name) = _
    unfold processRun
    rw [processRun_replicate_skip env name m _ (processItem_last_processed env s name)]
    simp [processRun]
  refine ⟨fun hd => processItem_skip env s name hd, hmain, ?_, ?_⟩
  · rw [hmain]
    show (processRun env s (name :: [])).2.resolutions ≤ 1
    unfold processRun
    simpa [processRun] using (processItem_trace_bound env s name).1
  · rw [hmain]
    show (processRun env s (name :: [])).2.switch_calls.length ≤ 1
    unfold processRun
    simpa [processRun] using (processItem_trace_bound env s name).2.2

/-- C2 witness: concrete duplicate run of two chrome.exe events. -/
theorem c2_consecutive_duplicate_suppression_witness :
    1 ≤ 2 ∧ stateDup.last_processed_process = some "chrome.exe" ∧
    processItem envEx stateDup "chrome.exe"
      = (stateDup, { resolutions := 0, active_queries := 0, switch_calls := [] }) ∧
    processRun envEx stateDup (List.replicate 2 "chrome.exe")
      = processRun envEx stateDup ["chrome.exe"] ∧
    (processRun envEx stateDup (List.replicate 2 "chrome.exe")).2.switch_calls.length ≤ 1 :=
  ⟨by decide, rfl,
   (c2_consecutive_duplicate_suppression envEx stateDup "chrome.exe" 2 (by decide)).1 rfl,
   (c2_consecutive_duplicate_suppression envEx stateDup "chrome.exe" 2 (by decide)).2.1,
   (c2_consecutive_duplicate_suppression envEx stateDup "chrome.exe" 2 (by decide)).2.2.2⟩

/-- C1: when the OS subscription fails (SetWinEventHook returns 0) the
listener thread terminates without entering the message loop, as the claim
says; but the failure is not observable by the coordinator: unless spawning
the listener thread itself raised, PowerSwitcherApp.start returns True and
never calls stop(), so a run with a failed subscription is reported as a
successful startup.  Only a spawn-time exception takes the abort path. -/
theorem c1_subscription_failure_not_surfaced :
    (∀ tid : Bool, (EventListener.thread_entry tid false).entered_message_loop = false) ∧
    (PowerSwitcherApp.start false true false).returned_true = true ∧
    (PowerSwitcherApp.start false true false).stop_called = false ∧
    (PowerSwitcherApp.start false true false).listener_run
      = some { subscription_failed := true, entered_message_loop := false } ∧
    (PowerSwitcherApp.start true true true).returned_true = false ∧
    (PowerSwitcherApp.start true true true).stop_called = true := by
  exact ⟨fun tid => by cases tid <;> rfl, rfl, rfl, rfl, rfl, rfl⟩

/-- C9: the tracker-coupling invariant holds initially and is preserved by
every branch of the per-item processing step: whenever both plan trackers
are set, the last known active GUID is the lowercase of the last applied
plan identifier. -/
theorem c9_tracker_coupling :
    trackerInv initialEngineState ∧
    ∀ (env : Env) (s : EngineState) (n : String),
      trackerInv s → trackerInv (processItem env s n).1 := by
  constructor
  · intro a g ha _
    simp [initialEngineState] at ha
  · intro env s n h
    rcases processItem_trackers env s n with ⟨h1, h2⟩ | ⟨t, h1, h2⟩
    · intro a g ha hg
      exact h a g (h1.symm.trans ha) (h2.symm.trans hg)
    · intro a g ha hg
      rw [h1] at ha
      rw [h2] at hg
      cases ha
      cases hg
      rfl

/-- C9 witness: the invariant propagated through one concrete step from the
initial state. -/
theorem c9_tracker_coupling_witness :
    trackerInv (processItem envEx initialEngineState "chrome.exe").1 :=
  c9_tracker_coupling.2 envEx initialEngineState "chrome.exe" c9_tracker_coupling.1

/-- C10: PowerCfgManager.switch_power_plan with an absent or empty plan
identifier fails immediately and issues no powercfg command, so an empty
target causes no system side effect. -/
theorem c10_empty_identifier_guard (powercfg_run : List String → Nat)
    (g : Option String) (h : g = none ∨ g = some "") :
    switch_power_plan powercfg_run g = { ok := false, commands_issued := [] } := by
  rcases h with rfl | rfl <;> rfl

/-- C10 witness: the guard at the absent identifier, with a powercfg oracle
that would report success if it were ever consulted. -/
theorem c10_empty_identifier_guard_witness :
    ((none : Option String) = none ∨ (none : Option String) = some "") ∧
    switch_power_plan (fun _ => 0) none = { ok := false, commands_issued := [] } :=
  ⟨Or.inl rfl, c10_empty_identifier_guard (fun _ => 0) none (Or.inl rfl)⟩

/-- C3: when the resolved target equals the active plan case-insensitively,
no setActivePlan call is made, and the two plan trackers are refreshed to
the resolved target exactly when the last known active GUID disagreed with
lower(target); in particular they are left unchanged whenever they already
agree with the target. -/
theorem c3_noop_switch (env : Env) (s : EngineState) (name target cur : String)
    (hdup : ¬ s.last_processed_process = some name)
    (hres : resolveTarget env name = some target)
    (hact : env.active_guid = some cur)
    (hcur : ¬ cur = "")
    (heq : cur.lower = target.lower) :
    (processItem env s name).2.switch_calls = [] ∧
    (s.last_known_active_guid = some target.lower →
      (processItem env s name).1.last_applied_power_plan_identifier
          = s.last_applied_power_plan_identifier ∧
      (processItem env s name).1.last_known_active_guid = s.last_known_active_guid) ∧
    (¬ s.last_known_active_guid = some target.lower →
      (processItem env s name).1.last_applied_power_plan_identifier = some target ∧
      (processItem env s name).1.last_known_active_guid = some target.lower) ∧
    ((s.last_applied_power_plan_identifier = some target ∧
        s.last_known_active_guid = some target.lower) →
      (processItem env s name).1.last_applied_power_plan_identifier
          = s.last_applied_power_plan_identifier ∧
      (processItem env s name).1.last_known_active_guid = s.last_known_active_guid) := by
  by_cases hk : s.last_known_active_guid = some target.lower
  · have hpi : processItem env s name
        = ({ s with last_processed_process := some name },
           { resolutions := 1, active_queries := 1, switch_calls := [] }) := by
      simp [processItem, hdup, hres, hact, hcur, heq, hk]
    rw [hpi]
    exact ⟨rfl, fun _ => ⟨rfl, rfl⟩, fun hn => absurd hk hn, fun _ => ⟨rfl, rfl⟩⟩
  · have hpi : processItem env s name
        = ({ s with last_processed_process := some name,
                    last_applied_power_plan_identifier := some target,
                    last_known_active_guid := some target.lower },
           { resolutions := 1, active_queries := 1, switch_calls := [] }) := by
      simp [processItem, hdup, hres, hact, hcur, heq, hk]
    rw [hpi]
    exact ⟨rfl, fun hc => absurd hc hk, fun _ => ⟨rfl, rfl⟩, fun hc => absurd hc.2 hk⟩

/-- C3 witness: active scheme x, mapped target X for chrome.exe; no switch
call is made and the trackers are refreshed because they disagreed. -/
theorem c3_noop_switch_witness :
    ("x".lower = "X".lower) ∧
    (processItem envNoop initialEngineState "chrome.exe").2.switch_calls = [] ∧
    (processItem envNoop initialEngineState "chrome.exe").1.last_applied_power_plan_identifier
      = some "X" ∧
    (processItem envNoop initialEngineState "chrome.exe").1.last_known_active_guid
      = some ("X".lower) :=
  ⟨by decide,
   (c3_noop_switch envNoop initialEngineState "chrome.exe" "X" "x"
      (by decide) (by decide) rfl (by decide) (by decide)).1,
   ((c3_noop_switch envNoop initialEngineState "chrome.exe" "X" "x"
      (by decide) (by decide) rfl (by decide) (by decide)).2.2.1 (by decide)).1,
   ((c3_noop_switch envNoop initialEngineState "chrome.exe" "X" "x"
      (by decide) (by decide) rfl (by decide) (by decide)).2.2.1 (by decide)).2⟩

/-- C4: when the resolved target differs case-insensitively from the active
plan, exactly one setActivePlan call with that target is made; on success
both trackers are set to target and lower(target), on failure both are left
untouched. -/
theorem c4_switch_on_mismatch (env : Env) (s : EngineState) (name target cur : String)
    (hdup : ¬ s.last_processed_process = some name)
    (hres : resolveTarget env name = some target)
    (hact : env.active_guid = some cur)
    (hcur : ¬ cur = "")
    (hne : ¬ cur.lower = target.lower) :
    (processItem env s name).2.switch_calls = [target] ∧
    ((switch_power_plan env.powercfg_run (some target)).ok = true →
      (processItem env s name).1.last_applied_power_plan_identifier = some target ∧
      (processItem env s name).1.last_known_active_guid = some target.lower) ∧
    ((switch_power_plan env.powercfg_run (some target)).ok = false →
      (processItem env s name).1.last_applied_power_plan_identifier
          = s.last_applied_power_plan_identifier ∧
      (processItem env s name).1.last_known_active_guid = s.last_known_active_guid) := by
  by_cases hsw : (switch_power_plan env.powercfg_run (some target)).ok = true
  · have hpi : processItem env s name
        = ({ s with last_processed_process := some name,
                    last_applied_power_plan_identifier := some target,
                    last_known_active_guid := some target.lower },
           { resolutions := 1, active_queries := 1, switch_calls := [target] }) := by
      simp [processItem, hdup, hres, hact, hcur, hne, hsw]
    rw [hpi]
    exact ⟨rfl, fun _ => ⟨rfl, rfl⟩, fun hc => by rw [hsw] at hc; cases hc⟩
  · have hsw0 : (switch_power_plan env.powercfg_run (some target)).ok = false :=
      Bool.not_eq_true _ ▸ hsw
    have hpi : processItem env s name
        = ({ s with last_processed_process := some name },
           { resolutions := 1, active_queries := 1, switch_calls := [target] }) := by
      simp [processItem, hdup, hres, hact, hcur, hne, hsw0]
    rw [hpi]
    exact ⟨rfl, fun hc => absurd hc hsw, fun _ => ⟨rfl, rfl⟩⟩

/-- C4 witness: active scheme Y differs from target X; the switch succeeds
and the trackers are updated. -/
theorem c4_switch_on_mismatch_witness :
    (¬ "Y".lower = "X".lower) ∧
    (processItem envEx initialEngineState "chrome.exe").2.switch_calls = ["X"] ∧
    (processItem envEx initialEngineState "chrome.exe").1.last_applied_power_plan_identifier
      = some "X" ∧
    (processItem envEx initialEngineState "chrome.exe").1.last_known_active_guid
      = some ("X".lower) :=
  ⟨by decide,
   (c4_switch_on_mismatch envEx initialEngineState "chrome.exe" "X" "Y"
      (by decide) (by decide) rfl (by decide) (by decide)).1,
   ((c4_switch_on_mismatch envEx initialEngineState "chrome.exe" "X" "Y"
      (by decide) (by decide) rfl (by decide) (by decide)).2.1 (by decide)).1,
   ((c4_switch_on_mismatch envEx initialEngineState "chrome.exe" "X" "Y"
      (by decide) (by decide) rfl (by decide) (by decide)).2.1 (by decide)).2⟩

/-- C5: for a process name absent from the config map, the resolved target
is the (stripped) default plan; and when the default is absent or blank the
event is discarded with no active-scheme query, no setActivePlan call, and
no change to the plan trackers. -/
theorem c5_fallback (env : Env) (s : EngineState) (name : String)
    (hdup : ¬ s.last_processed_process = some name)
    (habs : get_power_plan_for_process env.app_power_map name = none) :
    (∀ d, env.default_power_plan = some d → ¬ d.strip = "" →
      resolveTarget env name = some d.strip) ∧
    ((env.default_power_plan = none ∨
        (∃ d, env.default_power_plan = some d ∧ d.strip = "")) →
      (processItem env s name).2.switch_calls = [] ∧
      (processItem env s name).2.active_queries = 0 ∧
      (processItem env s name).1.last_applied_power_plan_identifier
          = s.last_applied_power_plan_identifier ∧
      (processItem env s name).1.last_known_active_guid = s.last_known_active_guid) := by
  constructor
  · intro d hd hdt
    have hd0 : ¬ d = "" := by
      intro h0
      rw [h0] at hdt
      exact hdt rfl
    simp [resolveTarget, habs, hd, hd0, hdt]
  · intro hfall
    have hrt : resolveTarget env name = none := by
      rcases hfall with hnone | ⟨d, hd, hdt⟩
      · simp [resolveTarget, habs, hnone]
      · by_cases hd0 : d = "" <;> simp [resolveTarget, habs, hd, hd0, hdt]
    have hpi : processItem env s name
        = ({ s with last_processed_process := some name },
           { resolutions := 1, active_queries := 0, switch_calls := [] }) := by
      simp [processItem, hdup, hrt]
    rw [hpi]
    exact ⟨rfl, rfl, rfl, rfl⟩

/-- C5 witness: unknown.exe with an empty map resolves to the default plan
D; with no default at all the event is discarded without any calls. -/
theorem c5_fallback_witness :
    resolveTarget envDefaultOnly "unknown.exe" = some ("D".strip) ∧
    (processItem envNoDefault initialEngineState "unknown.exe").2.switch_calls = [] ∧
    (processItem envNoDefault initialEngineState "unknown.exe").2.active_queries = 0 ∧
    (processItem envNoDefault initialEngineState "unknown.exe").1.last_known_active_guid
      = none :=
  ⟨(c5_fallback envDefaultOnly initialEngineState "unknown.exe"
      (by decide) (by decide)).1 "D" rfl (by decide),
   ((c5_fallback envNoDefault initialEngineState "unknown.exe"
      (by decide) (by decide)).2 (Or.inl rfl)).1,
   ((c5_fallback envNoDefault initialEngineState "unknown.exe"
      (by decide) (by decide)).2 (Or.inl rfl)).2.1,
   ((c5_fallback envNoDefault initialEngineState "unknown.exe"
      (by decide) (by decide)).2 (Or.inl rfl)).2.2.2⟩

/-- Publishing a sequence into the bounded queue delivers exactly the first
free-capacity items in order and reports every later publish as dropped. -/
theorem publishAll_spec {α : Type} (es : List α) :
    ∀ (q : EventQueue α), 0 < q.maxsize → q.items.length ≤ q.maxsize →
      (publishAll q es).1.items
          = q.items ++ List.take (q.maxsize - q.items.length) es ∧
      (publishAll q es).2
          = List.replicate (min es.length (q.maxsize - q.items.length)) true
              ++ List.replicate (es.length - (q.maxsize - q.items.length)) false := by
  induction es with
  | nil =>
    intro q _ _
    simp [publishAll]
  | cons e es ih =>
    intro q hpos hle
    by_cases hfull : q.maxsize ≤ q.items.length
    · have hq : put_nowait q e = (q, false) := by
        simp [put_nowait, hpos, hfull]
      have h0 : q.maxsize - q.items.length = 0 := by omega
      obtain ⟨ih1, ih2⟩ := ih q hpos hle
      constructor
      · simp [publishAll, hq, ih1, h0]
      · simp [publishAll, hq, ih2, h0, List.replicate_succ]
    · push_neg at hfull
      have hcond : ¬ (0 < q.maxsize ∧ q.maxsize ≤ q.items.length) := by omega
      have hq : put_nowait q e = ({ q with items := q.items ++ [e] }, true) := by
        simp [put_nowait, hcond]
      have hlen : ({ q with items := q.items ++ [e] } : EventQueue α).items.length
          = q.items.length + 1 := by simp
      obtain ⟨ih1, ih2⟩ := ih { q with items := q.items ++ [e] }
        (by simpa using hpos) (by simpa using hfull)
      obtain ⟨m, hm⟩ : ∃ m, q.maxsize - q.items.length = m + 1 :=
        ⟨q.maxsize - q.items.length - 1, by omega⟩
      have hm' : q.maxsize - (q.items.length + 1) = m := by omega
      constructor
      · rw [show publishAll q (e :: es)
              = ((publishAll (put_nowait q e).1 es).1,
                 (put_nowait q e).2 :: (publishAll (put_nowait q e).1 es).2) from rfl,
            hq]
        simp only [ih1, hlen, hm']
        simp [hm, List.append_assoc]
      · rw [show publishAll q (e :: es)
              = ((publishAll (put_nowait q e).1 es).1,
                 (put_nowait q e).2 :: (publishAll (put_nowait q e).1 es).2) from rfl,
            hq]
        simp only [ih2, hlen, hm']
        simp [hm, List.replicate_succ, Nat.succ_min_succ, Nat.succ_sub_succ]

/-- C6: put_nowait into a queue at capacity drops the newly published event
and leaves the queued ones untouched, reporting the drop; and publishing any
sequence into a fresh queue of capacity k delivers exactly the first k
events in publication order, the remainder reporting dropped. -/
theorem c6_channel_drop_newest :
    (∀ (q : EventQueue String) (e : String), 0 < q.maxsize →
        q.items.length = q.maxsize → put_nowait q e = (q, false)) ∧
    (∀ (k : Nat) (es : List String), 0 < k →
        (publishAll { maxsize := k, items := [] } es).1.items = List.take k es ∧
        (publishAll { maxsize := k, items := [] } es).2
          = List.replicate (min es.length k) true
              ++ List.replicate (es.length - k) false) := by
  constructor
  · intro q e hpos hlen
    simp [put_nowait, hpos, hlen]
  · intro k es hk
    have h := publishAll_spec es { maxsize := k, items := [] }
      (by simpa using hk) (by simp)
    simpa using h

/-- C6 witness: scenario D, capacity 2 with three publishes and no receive:
the third publish is dropped and the first two remain in order. -/
theorem c6_channel_drop_newest_witness :
    0 < 2 ∧
    put_nowait { maxsize := 2, items := ["a", "b"] } "c"
      = ({ maxsize := 2, items := ["a", "b"] }, false) ∧
    (publishAll { maxsize := 2, items := ([] : List String) } ["a", "b", "c"]).1.items
      = ["a", "b"] ∧
    (publishAll { maxsize := 2, items := ([] : List String) } ["a", "b", "c"]).2
      = [true, true, false] :=
  ⟨by decide,
   c6_channel_drop_newest.1 { maxsize := 2, items := ["a", "b"] } "c" (by decide) rfl,
   (c6_channel_drop_newest.2 2 ["a", "b", "c"] (by decide)).1,
   (c6_channel_drop_newest.2 2 ["a", "b", "c"] (by decide)).2⟩

/-- C7: stop is idempotent: every stop call leaves the running flag false
and attempts cleanup; a stop on an already-stopped state is a no-op that
still runs the cleanup sequence, and a second consecutive stop changes
nothing and still reports cleanup, with running false after both calls. -/
theorem c7_idempotent_stop (s : AppState) :
    ((PowerSwitcherApp.stop s).1).running = false ∧
    (PowerSwitcherApp.stop s).2.cleanup_attempted = true ∧
    (s.running = false →
      PowerSwitcherApp.stop s
        = (cleanup_threads_and_hooks s,
           { cleanup_attempted := true, sentinel_delivered := false })) ∧
    (PowerSwitcherApp.stop (PowerSwitcherApp.stop s).1).1 = (PowerSwitcherApp.stop s).1 ∧
    (PowerSwitcherApp.stop (PowerSwitcherApp.stop s).1).2.cleanup_attempted = true ∧
    ((PowerSwitcherApp.stop (PowerSwitcherApp.stop s).1).1).running = false := by
  by_cases hr : s.running = false
  · simp [PowerSwitcherApp.stop, cleanup_threads_and_hooks, hr]
  · simp [PowerSwitcherApp.stop, cleanup_threads_and_hooks, hr]

/-- C7 witness: two consecutive stops from an already-stopped state. -/
theorem c7_idempotent_stop_witness :
    stoppedApp.running = false ∧
    PowerSwitcherApp.stop stoppedApp
      = (cleanup_threads_and_hooks stoppedApp,
         { cleanup_attempted := true, sentinel_delivered := false }) ∧
    (PowerSwitcherApp.stop (PowerSwitcherApp.stop stoppedApp).1).2.cleanup_attempted = true ∧
    ((PowerSwitcherApp.stop (PowerSwitcherApp.stop stoppedApp).1).1).running = false :=
  ⟨rfl,
   (c7_idempotent_stop stoppedApp).2.2.1 rfl,
   (c7_idempotent_stop stoppedApp).2.2.2.2.1,
   (c7_idempotent_stop stoppedApp).2.2.2.2.2⟩

/-- The processing loop consumes every input of a sentinel-free prefix and
then continues into the remaining schedule from the state it reached. -/
theorem process_queue_loop_append (env : Env) (xs : List LoopInput) :
    ∀ (s : EngineState) (ys : List LoopInput), LoopInput.sentinel ∉ xs →
      process_queue_loop env s (xs ++ ys)
        = ((process_queue_loop env (process_queue_loop env s xs).1 ys).1,
           (process_queue_loop env s xs).2
             ++ (process_queue_loop env (process_queue_loop env s xs).1 ys).2) := by
  induction xs with
  | nil =>
    intro s ys _
    simp [process_queue_loop]
  | cons x xs ih =>
    intro s ys hxs
    have hxs' : LoopInput.sentinel ∉ xs := fun h => hxs (List.mem_cons_of_mem _ h)
    cases x with
    | timeout =>
      simp only [List.cons_append, process_queue_loop]
      exact ih s ys hxs'
    | sentinel => exact absurd (List.mem_cons_self _ _) hxs
    | event n =>
      simp only [List.cons_append, process_queue_loop, List.append_eq]
      rw [ih (processItem env s n).1 ys hxs']
      simp [List.append_assoc]
    | fault f =>
      simp only [List.cons_append, process_queue_loop]
      exact ih (f s) ys hxs'

/-- C8: an unexpected error in one iteration (a fault input, with whatever
partial state mutation the raised exception left behind) is absorbed by the
per-iteration except clause and the loop continues with the next input; more
generally no sentinel-free schedule prefix can terminate the consumer: the
loop always proceeds into the remaining inputs from the state reached. -/
theorem c8_per_item_fault_containment :
    (∀ (env : Env) (s : EngineState) (f : EngineState → EngineState)
        (rest : List LoopInput),
      process_queue_loop env s (LoopInput.fault f :: rest)
        = process_queue_loop env (f s) rest) ∧
    (∀ (env : Env) (s : EngineState) (xs ys : List LoopInput),
      LoopInput.sentinel ∉ xs →
      process_queue_loop env s (xs ++ ys)
        = ((process_queue_loop env (process_queue_loop env s xs).1 ys).1,
           (process_queue_loop env s xs).2
             ++ (process_queue_loop env (process_queue_loop env s xs).1 ys).2)) :=
  ⟨fun _ _ _ _ => rfl, fun env s xs ys h => process_queue_loop_append env xs s ys h⟩

/-- C8 witness: a faulting item followed by an ordinary event; the loop
survives the fault and still processes the event. -/
theorem c8_per_item_fault_containment_witness :
    LoopInput.sentinel ∉ [LoopInput.fault (fun t : EngineState => t)] ∧
    process_queue_loop envEx initialEngineState
        (LoopInput.fault (fun t : EngineState => t) :: [LoopInput.event "chrome.exe"])
      = process_queue_loop envEx initialEngineState [LoopInput.event "chrome.exe"] ∧
    process_queue_loop envEx initialEngineState
        ([LoopInput.fault (fun t : EngineState => t)] ++ [LoopInput.event "chrome.exe"])
      = ((process_queue_loop envEx
            (process_queue_loop envEx initialEngineState
              [LoopInput.fault (fun t : EngineState => t)]).1
            [LoopInput.event "chrome.exe"]).1,
         (process_queue_loop envEx initialEngineState
            [LoopInput.fault (fun t : EngineState => t)]).2
           ++ (process_queue_loop envEx
                 (process_queue_loop envEx initialEngineState
                   [LoopInput.fault (fun t : EngineState => t)]).1
                 [LoopInput.event "chrome.exe"]).2) :=
  ⟨by simp,
   c8_per_item_fault_containment.1 envEx initialEngineState
     (fun t : EngineState => t) [LoopInput.event "chrome.exe"],
   c8_per_item_fault_containment.2 envEx initialEngineState
     [LoopInput.fault (fun t : EngineState => t)] [LoopInput.event "chrome.exe"]
     (by simp)⟩
